import Mathlib

/-!
Shallow embedding of the public-transport display widget
(`src/widget/src/lib.rs`) and verification of its specification.

Modelling conventions:
* Rust `OffsetDateTime` (from the `time` crate) is modelled as an absolute
  instant in integer nanoseconds since the Unix epoch together with the
  encoded UTC offset in seconds.
* The ambient clock collaborator (`clocks::now`) returns a fixed seconds
  value during one invocation; the instant obtained from it is threaded
  through the rendering functions as an explicit `now` parameter.
* The HTTP collaborator and the byte-level JSON decoders (external
  collaborators per the architecture) are passed as function parameters.
* Fallible operations (Rust `Result`, `unwrap`, `expect`) are modelled with
  `Except`; a `.error` value of `run`/`now` models an aborted invocation
  (a Rust panic).
-/

/-- Absolute instant (nanoseconds since Unix epoch) together with the
timestamp's own encoded UTC offset in seconds.  Models `time::OffsetDateTime`. -/
structure OffsetDateTime where
  nanos : Int
  offsetSecs : Int
deriving DecidableEq, Repr

/-- Models `time::Duration` subtraction of two `OffsetDateTime`s: the
difference of the absolute instants, in nanoseconds (offsets are irrelevant
for instant subtraction). -/
def OffsetDateTime.sub (a b : OffsetDateTime) : Int :=
  a.nanos - b.nanos

/-- Models `time::Duration::is_positive`: the duration is strictly greater
than zero. -/
def durationIsPositive (d : Int) : Bool :=
  decide (0 < d)

/-- Wall-clock seconds of the instant in its own encoded offset
(floor division, as the `time` crate computes local components). -/
def OffsetDateTime.localSeconds (d : OffsetDateTime) : Int :=
  (d.nanos + d.offsetSecs * 1000000000).ediv 1000000000

/-- Hour-of-day (0..23) of the instant in its own encoded offset. -/
def OffsetDateTime.hourOf (d : OffsetDateTime) : Nat :=
  ((d.localSeconds.ediv 3600).emod 24).toNat

/-- Minute-of-hour (0..59) of the instant in its own encoded offset. -/
def OffsetDateTime.minuteOf (d : OffsetDateTime) : Nat :=
  ((d.localSeconds.ediv 60).emod 60).toNat

/-- Zero-padding to two digits, as the `[hour]`/`[minute]` format
components render. -/
def pad2 (n : Nat) : String :=
  (if n < 10 then "0" else "") ++ toString n

/-- Models formatting an `OffsetDateTime` with the parsed format description
`[hour]:[minute]` from the `time` crate: a fallible formatter (the crate API
returns `Result`) that on this well-formed description always succeeds with
the zero-padded 24-hour local clock time. -/
def timeFormatHM (d : OffsetDateTime) : Except Unit String :=
  Except.ok (pad2 d.hourOf ++ ":" ++ pad2 d.minuteOf)

/-- Data model: `struct FromData { departure: OffsetDateTime }`. -/
structure FromData where
  departure : OffsetDateTime
deriving DecidableEq, Repr

/-- Data model: `struct FromMetaData { name: String }`. -/
structure FromMetaData where
  name : String
deriving DecidableEq, Repr

/-- Data model: `struct ToMetaData { name: String }`. -/
structure ToMetaData where
  name : String
deriving DecidableEq, Repr

/-- Data model: `struct ConnectionData { from: FromData }`.
The source field `from` is a Lean keyword and is rendered `from_`. -/
structure ConnectionData where
  from_ : FromData
deriving DecidableEq, Repr

/-- Data model: `struct PublicTransportData { connections, from, to }`. -/
structure PublicTransportData where
  connections : List ConnectionData
  from_ : FromMetaData
  to_ : ToMetaData
deriving DecidableEq, Repr

/-- Data model: `struct Connection { from_station, to_station, num_connections }`
with `num_connections : u8` modelled as `Fin 256`. -/
structure Connection where
  from_station : String
  to_station : String
  num_connections : Fin 256
deriving DecidableEq, Repr

/-- Data model: `struct WidgetConfig { connections: Vec<Connection> }`. -/
structure WidgetConfig where
  connections : List Connection
deriving DecidableEq, Repr

/-- Host interface: `WidgetContext` carries the configuration JSON string. -/
structure WidgetContext where
  config : String
deriving DecidableEq, Repr

/-- Host interface: `WidgetResult` carries the text payload. -/
structure WidgetResult where
  data : String
deriving DecidableEq, Repr

/-- Response of the HTTP collaborator: status code and payload bytes. -/
structure HttpResponse where
  status : Nat
  bytes : List Nat
deriving DecidableEq, Repr

/-- JSON values, the common currency of the (de)serialization collaborators. -/
inductive Json where
  | null : Json
  | bool (b : Bool) : Json
  | num (n : Int) : Json
  | str (s : String) : Json
  | arr (elems : List Json) : Json
  | obj (fields : List (String × Json)) : Json

/-- Models `u64 as i64`: reinterpret the low 64 bits as a signed value. -/
def u64_as_i64 (s : Nat) : Int :=
  let m : Nat := s % 2 ^ 64
  if m < 2 ^ 63 then (m : Int) else (m : Int) - 2 ^ 64

/-- Models `time::OffsetDateTime::from_unix_timestamp` (external crate,
default date range `-9999-01-01 .. 9999-12-31`, i.e. Unix seconds in
`-377705116800 ..= 253402300799`): in range it yields the UTC instant,
out of range it yields the crate's component-range error. -/
def from_unix_timestamp (ts : Int) : Except Unit OffsetDateTime :=
  if -377705116800 ≤ ts ∧ ts ≤ 253402300799 then
    Except.ok ⟨ts * 1000000000, 0⟩
  else
    Except.error ()

/-- Source `MyWidget::now` (lib.rs:107-110): reads the clock collaborator's
seconds, casts them `as i64` and unwraps `from_unix_timestamp`; the unwrap
panic is modelled as `Except.error`. -/
def MyWidget.now (clockSeconds : Nat) : Except Unit OffsetDateTime :=
  from_unix_timestamp (u64_as_i64 clockSeconds)

/-- Rough-accuracy English phrase for a nonnegative number of whole seconds.
Models the `time_humanize` crate (external dependency): thresholds and
wording of its rough-accuracy period selection. -/
def rough_phrase (n : Nat) : String :=
  if n > 547 * 86400 then toString (max (n / 31536000) 2) ++ " years"
  else if n > 345 * 86400 then "a year"
  else if n > 45 * 86400 then toString (max (n / 2592000) 2) ++ " months"
  else if n > 29 * 86400 then "a month"
  else if n > 10 * 86400 + 12 * 3600 then toString (max (n / 604800) 2) ++ " weeks"
  else if n > 6 * 86400 + 12 * 3600 then "a week"
  else if n > 29 * 3600 then toString (max (n / 86400) 2) ++ " days"
  else if n > 22 * 3600 then "a day"
  else if n > 89 * 60 then toString (max (n / 3600) 2) ++ " hours"
  else if n > 44 * 60 then "an hour"
  else if n > 89 then toString (max (n / 60) 2) ++ " minutes"
  else if n > 44 then "a minute"
  else if n > 10 then toString n ++ " seconds"
  else "now"

/-- Models `HumanTime::from(d).to_text_en(Accuracy::Rough, Tense::Future)`
from the `time_humanize` crate for a nonnegative duration of `n` whole
seconds: the rough phrase in future tense. -/
def to_text_en_rough_future (n : Nat) : String :=
  if n ≤ 10 then "now" else "in " ++ rough_phrase n

/-- Source `MyWidget::format_departure_offset` (lib.rs:178-181): the
rough-accuracy future-tense phrase of the absolute difference between the
departure and the clock instant, truncated to whole seconds.  The ambient
clock is threaded as the explicit `now` parameter. -/
def MyWidget.format_departure_offset (now : OffsetDateTime) (departure : OffsetDateTime) : String :=
  to_text_en_rough_future ((departure.sub now).natAbs / 1000000000)

/-- Source `MyWidget::format_departure_time` generalized over the fallible
clock-time formatter, mirroring the `match` in lib.rs:172-175. -/
def MyWidget.format_departure_time_with (fmt : OffsetDateTime → Except Unit String)
    (departure : OffsetDateTime) : String :=
  match fmt departure with
  | Except.ok s => s
  | Except.error _ => "Could not format departure"

/-- Source `MyWidget::format_departure_time` (lib.rs:170-176): formats the
departure with the `[hour]:[minute]` description, downgrading a formatting
failure to a literal message. -/
def MyWidget.format_departure_time (departure : OffsetDateTime) : String :=
  MyWidget.format_departure_time_with timeFormatHM departure

/-- Header line `"{from.name} -> {to.name}"` of lib.rs:145. -/
def header (data : PublicTransportData) : String :=
  data.from_.name ++ " -> " ++ data.to_.name

/-- Filter predicate of lib.rs:155:
`(connection.from.departure - MyWidget::now()).is_positive()`. -/
def futureFilter (now : OffsetDateTime) (c : ConnectionData) : Bool :=
  durationIsPositive (c.from_.departure.sub now)

/-- The retained connections of lib.rs:152-156: the source-order future
connections, truncated to the requested count (`filter` then `take`). -/
def retained (now : OffsetDateTime) (data : PublicTransportData) (num_departures : Nat) :
    List ConnectionData :=
  (data.connections.filter (futureFilter now)).take num_departures

/-- One appended departure line of lib.rs:160-165:
`"\n{offset-phrase} ({clock-time})"`. -/
def departureLine (now : OffsetDateTime) (c : ConnectionData) : String :=
  "\n" ++ MyWidget.format_departure_offset now c.from_.departure ++ " ("
    ++ MyWidget.format_departure_time c.from_.departure ++ ")"

/-- Source `MyWidget::get_departure_string` (lib.rs:144-168).  The ambient
clock — read through `MyWidget::now()` inside the filter and the offset
formatter, constant during one invocation — is threaded as the explicit
`now` parameter. -/
def MyWidget.get_departure_string (now : OffsetDateTime) (data : PublicTransportData)
    (num_departures : Nat) : String :=
  let content := header data
  if data.connections.isEmpty then
    content ++ "\nNo departures"
  else
    (retained now data num_departures).foldl (fun content c => content ++ departureLine now c) content

/-- A byte is kept verbatim by `urlencoding::encode` iff it is ASCII
alphanumeric or one of `-`, `.`, `_`, `~`. -/
def isUnreservedByte (b : Nat) : Bool :=
  (65 ≤ b && b ≤ 90) || (97 ≤ b && b ≤ 122) || (48 ≤ b && b ≤ 57)
    || b == 45 || b == 46 || b == 95 || b == 126

/-- Uppercase hexadecimal digit for a value below 16. -/
def hexDigit (n : Nat) : Char :=
  if n < 10 then Char.ofNat (48 + n) else Char.ofNat (55 + n)

/-- Percent-encoding of one UTF-8 byte, as `urlencoding::encode` does. -/
def encodeByte (b : Nat) : String :=
  if isUnreservedByte b then String.singleton (Char.ofNat b)
  else "%" ++ String.singleton (hexDigit (b / 16)) ++ String.singleton (hexDigit (b % 16))

/-- Models `urlencoding::encode` (external crate): percent-encode every
non-unreserved UTF-8 byte of the string. -/
def urlencode (s : String) : String :=
  String.join (s.toUTF8.toList.map (fun b => encodeByte b.toNat))

/-- The request URL built in lib.rs:113-117. -/
def request_url (connection : Connection) : String :=
  "http://transport.opendata.ch/v1/connections?from=" ++ urlencode connection.from_station
    ++ "&to=" ++ urlencode connection.to_station ++ "&limit=16"

/-- Source `MyWidget::fetch_connection` (lib.rs:112-142), parameterized by
the HTTP collaborator `request` and by `parseTransport`, the external
`serde_json::from_slice` decoder into `PublicTransportData` (its `String`
error is the rendered decoder error detail). -/
def MyWidget.fetch_connection
    (request : String → Except Unit HttpResponse)
    (parseTransport : List Nat → Except String PublicTransportData)
    (now : OffsetDateTime)
    (connection : Connection) : Except WidgetResult String :=
  let url := request_url connection
  match request url with
  | Except.error _ => Except.error ⟨"Failed to make network request"⟩
  | Except.ok response =>
    if 200 ≠ response.status then
      Except.error ⟨"Response status != 200: " ++ toString response.status⟩
    else
      match parseTransport response.bytes with
      | Except.error e => Except.error ⟨"Failed to parse response: " ++ e⟩
      | Except.ok data =>
        Except.ok (MyWidget.get_departure_string now data connection.num_connections.val)

/-- Modelled from the spec: the JSON encoding of one `Connection`
(the source derives only the decoding side; the schema fixes the three
fields, `num_connections` serialized as a number). -/
def encodeConnection (c : Connection) : Json :=
  Json.obj [("from_station", Json.str c.from_station),
            ("to_station", Json.str c.to_station),
            ("num_connections", Json.num (c.num_connections.val : Int))]

/-- Modelled from the spec: the JSON encoding of a `WidgetConfig`
(a `connections` field holding the encoded list). -/
def encodeWidgetConfig (c : WidgetConfig) : Json :=
  Json.obj [("connections", Json.arr (c.connections.map encodeConnection))]

/-- Models the derived serde decoder for `Connection`: an object with the
three required fields, `num_connections` a number in the `u8` range. -/
def decodeConnection : Json → Except String Connection
  | Json.obj fields =>
    match List.lookup "from_station" fields, List.lookup "to_station" fields,
        List.lookup "num_connections" fields with
    | some (Json.str f), some (Json.str t), some (Json.num n) =>
      if h : 0 ≤ n ∧ n < 256 then
        Except.ok ⟨f, t, ⟨n.toNat, by omega⟩⟩
      else
        Except.error "invalid value: number out of range of u8"
    | _, _, _ => Except.error "missing or ill-typed field"
  | _ => Except.error "expected a map"

/-- Elementwise decoding of a JSON array of connections, failing on the
first bad element (as serde does). -/
def decodeConnectionList : List Json → Except String (List Connection)
  | [] => Except.ok []
  | x :: xs =>
    match decodeConnection x, decodeConnectionList xs with
    | Except.ok c, Except.ok cs => Except.ok (c :: cs)
    | Except.error e, _ => Except.error e
    | _, Except.error e => Except.error e

/-- Models the derived serde decoder for `WidgetConfig`: an object with a
required `connections` array field. -/
def decodeWidgetConfig : Json → Except String WidgetConfig
  | Json.obj fields =>
    match List.lookup "connections" fields with
    | some (Json.arr xs) =>
      match decodeConnectionList xs with
      | Except.ok cs => Except.ok ⟨cs⟩
      | Except.error e => Except.error e
    | _ => Except.error "missing or ill-typed field connections"
  | _ => Except.error "expected a map"

/-- Models `serde_json::from_str::<WidgetConfig>`: the external text-level
JSON parser `parseJson` followed by the struct decoder. -/
def from_str_widget_config (parseJson : String → Except String Json)
    (s : String) : Except String WidgetConfig :=
  match parseJson s with
  | Except.error e => Except.error e
  | Except.ok j => decodeWidgetConfig j

/-- Source `MyWidget::run` (lib.rs:67-88), parameterized by the text-level
JSON parser and the fetch collaborators.  The `expect` panic on a config
decode failure is modelled as `Except.error`. -/
def MyWidget.run
    (parseJson : String → Except String Json)
    (request : String → Except Unit HttpResponse)
    (parseTransport : List Nat → Except String PublicTransportData)
    (now : OffsetDateTime)
    (context : WidgetContext) : Except String WidgetResult :=
  if context.config = "{}" then
    Except.ok ⟨"No config provided"⟩
  else
    match from_str_widget_config parseJson context.config with
    | Except.error _ => Except.error "Failed to parse config"
    | Except.ok config =>
      Except.ok ⟨String.intercalate "\n" (config.connections.map (fun connection =>
        match MyWidget.fetch_connection request parseTransport now connection with
        | Except.ok content => content
        | Except.error error => error.data))⟩

/-! ## Helper lemmas -/

/-- Concatenation of the rendered strings of a list, in order. -/
def stringConcatMap {α : Type} (f : α → String) : List α → String
  | [] => ""
  | x :: xs => f x ++ stringConcatMap f xs

lemma foldl_append_concatMap {α : Type} (f : α → String) :
    ∀ (l : List α) (acc : String),
      l.foldl (fun s c => s ++ f c) acc = acc ++ stringConcatMap f l := by
  intro l
  induction l with
  | nil => intro acc; simp [stringConcatMap]
  | cons x xs ih => intro acc; simp [stringConcatMap, ih, String.append_assoc]

lemma pad2_length {n : Nat} (h : n < 100) : (pad2 n).length = 2 := by
  interval_cases n <;> rfl

lemma get_departure_string_nonempty (now : OffsetDateTime) (data : PublicTransportData)
    (k : Nat) (hne : data.connections ≠ []) :
    MyWidget.get_departure_string now data k
      = header data ++ stringConcatMap (departureLine now) (retained now data k) := by
  unfold MyWidget.get_departure_string
  rw [if_neg]
  · exact foldl_append_concatMap _ _ _
  · simp [hne]

lemma decode_encode_connection (c : Connection) :
    decodeConnection (encodeConnection c) = Except.ok c := by
  simp [encodeConnection, decodeConnection, List.lookup]

lemma decode_encode_connection_list (l : List Connection) :
    decodeConnectionList (l.map encodeConnection) = Except.ok l := by
  induction l with
  | nil => rfl
  | cons c cs ih => simp [decodeConnectionList, decode_encode_connection, ih]

/-! ## Claim theorems -/

/-- C1: for every response with non-empty connections and every requested
count, `get_departure_string` renders exactly the source-order connections
whose departure is strictly after the current time truncated to the
requested count: the output is the header followed by the retained lines,
the retained list is an order-preserving sublist of the source sequence,
every retained departure is strictly in the future (a zero or negative
offset is excluded), at most `k` survivors are rendered, and with all `N`
connections in the future and `k ≤ N` exactly the first `k` in source
order are retained. -/
theorem get_departure_string_filters_future_in_order
    (now : OffsetDateTime) (data : PublicTransportData) (k : Nat)
    (hne : data.connections ≠ []) :
    MyWidget.get_departure_string now data k
        = header data ++ stringConcatMap (departureLine now) (retained now data k)
      ∧ (retained now data k).Sublist data.connections
      ∧ (∀ c ∈ retained now data k, 0 < c.from_.departure.sub now)
      ∧ (retained now data k).length ≤ k
      ∧ ((∀ c ∈ data.connections, 0 < c.from_.departure.sub now) →
          retained now data k = data.connections.take k) := by
  refine ⟨get_departure_string_nonempty now data k hne, ?_, ?_, ?_, ?_⟩
  · exact (List.take_sublist _ _).trans (List.filter_sublist _)
  · intro c hc
    have hmem : c ∈ data.connections.filter (futureFilter now) :=
      List.mem_of_mem_take hc
    have := List.of_mem_filter hmem
    simpa [futureFilter, durationIsPositive] using this
  · exact List.length_take_le _ _
  · intro hall
    have : data.connections.filter (futureFilter now) = data.connections := by
      apply List.filter_eq_self.mpr
      intro c hc
      simpa [futureFilter, durationIsPositive] using hall c hc
    simp [retained, this]

theorem get_departure_string_filters_future_in_order_witness :
    MyWidget.get_departure_string ⟨0, 0⟩
        ⟨[⟨⟨⟨-60000000000, 0⟩⟩⟩, ⟨⟨⟨300000000000, 0⟩⟩⟩, ⟨⟨⟨600000000000, 0⟩⟩⟩], ⟨"A"⟩, ⟨"B"⟩⟩ 1
      = header ⟨[⟨⟨⟨-60000000000, 0⟩⟩⟩, ⟨⟨⟨300000000000, 0⟩⟩⟩, ⟨⟨⟨600000000000, 0⟩⟩⟩], ⟨"A"⟩, ⟨"B"⟩⟩
        ++ stringConcatMap (departureLine ⟨0, 0⟩)
          (retained ⟨0, 0⟩
            ⟨[⟨⟨⟨-60000000000, 0⟩⟩⟩, ⟨⟨⟨300000000000, 0⟩⟩⟩, ⟨⟨⟨600000000000, 0⟩⟩⟩], ⟨"A"⟩, ⟨"B"⟩⟩ 1) :=
  (get_departure_string_filters_future_in_order ⟨0, 0⟩
    ⟨[⟨⟨⟨-60000000000, 0⟩⟩⟩, ⟨⟨⟨300000000000, 0⟩⟩⟩, ⟨⟨⟨600000000000, 0⟩⟩⟩], ⟨"A"⟩, ⟨"B"⟩⟩ 1
    (by decide)).1

/-- C2: for every response with empty connections, `get_departure_string`
returns exactly the header line followed by the literal line
`"No departures"`; this output is distinct from the bare header that the
filtered-to-zero case produces. -/
theorem get_departure_string_empty_connections
    (now : OffsetDateTime) (data : PublicTransportData) (k : Nat)
    (hempty : data.connections = []) :
    MyWidget.get_departure_string now data k = header data ++ "\nNo departures"
      ∧ MyWidget.get_departure_string now data k ≠ header data := by
  have hout : MyWidget.get_departure_string now data k = header data ++ "\nNo departures" := by
    unfold MyWidget.get_departure_string
    rw [if_pos]
    simp [hempty]
  refine ⟨hout, ?_⟩
  rw [hout]
  intro habs
  have := congrArg String.length habs
  rw [String.length_append] at this
  have h14 : ("\nNo departures").length = 14 := rfl
  omega

theorem get_departure_string_empty_connections_witness :
    MyWidget.get_departure_string ⟨0, 0⟩ ⟨[], ⟨"A"⟩, ⟨"B"⟩⟩ 3
        = header ⟨[], ⟨"A"⟩, ⟨"B"⟩⟩ ++ "\nNo departures"
      ∧ MyWidget.get_departure_string ⟨0, 0⟩ ⟨[], ⟨"A"⟩, ⟨"B"⟩⟩ 3 ≠ header ⟨[], ⟨"A"⟩, ⟨"B"⟩⟩ :=
  get_departure_string_empty_connections ⟨0, 0⟩ ⟨[], ⟨"A"⟩, ⟨"B"⟩⟩ 3 rfl

/-- C3: for every response with non-empty connections, if every departure
is at or before the current time or the requested count is zero, the output
is exactly the header line, with no departure lines and no
`"No departures"` marker. -/
theorem get_departure_string_no_survivors_header_only
    (now : OffsetDateTime) (data : PublicTransportData) (k : Nat)
    (hne : data.connections ≠ [])
    (h : (∀ c ∈ data.connections, c.from_.departure.sub now ≤ 0) ∨ k = 0) :
    MyWidget.get_departure_string now data k = header data := by
  have hret : retained now data k = [] := by
    rcases h with hall | hzero
    · have : data.connections.filter (futureFilter now) = [] := by
        apply List.filter_eq_nil_iff.mpr
        intro c hc
        have := hall c hc
        simp [futureFilter, durationIsPositive]
        omega
      simp [retained, this]
    · simp [retained, hzero]
  rw [get_departure_string_nonempty now data k hne, hret]
  simp [stringConcatMap]

theorem get_departure_string_no_survivors_header_only_witness :
    MyWidget.get_departure_string ⟨0, 0⟩ ⟨[⟨⟨⟨-60000000000, 0⟩⟩⟩], ⟨"A"⟩, ⟨"B"⟩⟩ 3
      = header ⟨[⟨⟨⟨-60000000000, 0⟩⟩⟩], ⟨"A"⟩, ⟨"B"⟩⟩ :=
  get_departure_string_no_survivors_header_only ⟨0, 0⟩
    ⟨[⟨⟨⟨-60000000000, 0⟩⟩⟩], ⟨"A"⟩, ⟨"B"⟩⟩ 3 (by decide)
    (Or.inl (by intro c hc; fin_cases hc; decide))

/-- C4: for every retained connection, the appended line is exactly
`"\n{relative-phrase} ({HH:MM})"`: the rendered output is the header
followed, per retained record, by a newline, the relative phrase, and the
parenthesised clock time; the clock time is the zero-padded 24-hour
hour and minute taken from the timestamp's own encoded offset (both
components two characters wide); and a failing clock-time formatter
downgrades to the literal `"Could not format departure"` instead of
aborting the render. -/
theorem departure_line_format
    (now : OffsetDateTime) (data : PublicTransportData) (k : Nat)
    (hne : data.connections ≠ []) :
    MyWidget.get_departure_string now data k
        = header data ++ stringConcatMap (fun c =>
            "\n" ++ MyWidget.format_departure_offset now c.from_.departure ++ " ("
              ++ MyWidget.format_departure_time c.from_.departure ++ ")")
            (retained now data k)
      ∧ (∀ d : OffsetDateTime,
          MyWidget.format_departure_time d = pad2 d.hourOf ++ ":" ++ pad2 d.minuteOf)
      ∧ (∀ d : OffsetDateTime,
          d.hourOf < 24 ∧ d.minuteOf < 60
            ∧ (pad2 d.hourOf).length = 2 ∧ (pad2 d.minuteOf).length = 2)
      ∧ (∀ (fmt : OffsetDateTime → Except Unit String) (d : OffsetDateTime) (e : Unit),
          fmt d = Except.error e →
            MyWidget.format_departure_time_with fmt d = "Could not format departure") := by
  have hbound : ∀ d : OffsetDateTime, d.hourOf < 24 ∧ d.minuteOf < 60 := by
    intro d
    constructor
    · have h1 : (d.localSeconds.ediv 3600).emod 24 < 24 :=
        Int.emod_lt_of_pos _ (by norm_num)
      have h2 : 0 ≤ (d.localSeconds.ediv 3600).emod 24 :=
        Int.emod_nonneg _ (by norm_num)
      unfold OffsetDateTime.hourOf
      omega
    · have h1 : (d.localSeconds.ediv 60).emod 60 < 60 :=
        Int.emod_lt_of_pos _ (by norm_num)
      have h2 : 0 ≤ (d.localSeconds.ediv 60).emod 60 :=
        Int.emod_nonneg _ (by norm_num)
      unfold OffsetDateTime.minuteOf
      omega
  refine ⟨get_departure_string_nonempty now data k hne, ?_, ?_, ?_⟩
  · intro d
    rfl
  · intro d
    obtain ⟨hh, hm⟩ := hbound d
    exact ⟨hh, hm, pad2_length (by omega), pad2_length (by omega)⟩
  · intro fmt d e hfmt
    unfold MyWidget.format_departure_time_with
    rw [hfmt]

theorem departure_line_format_witness :
    MyWidget.get_departure_string ⟨0, 0⟩ ⟨[⟨⟨⟨300000000000, 0⟩⟩⟩], ⟨"A"⟩, ⟨"B"⟩⟩ 1
      = header ⟨[⟨⟨⟨300000000000, 0⟩⟩⟩], ⟨"A"⟩, ⟨"B"⟩⟩
        ++ stringConcatMap (fun c =>
            "\n" ++ MyWidget.format_departure_offset ⟨0, 0⟩ c.from_.departure ++ " ("
              ++ MyWidget.format_departure_time c.from_.departure ++ ")")
          (retained ⟨0, 0⟩ ⟨[⟨⟨⟨300000000000, 0⟩⟩⟩], ⟨"A"⟩, ⟨"B"⟩⟩ 1) :=
  (departure_line_format ⟨0, 0⟩ ⟨[⟨⟨⟨300000000000, 0⟩⟩⟩], ⟨"A"⟩, ⟨"B"⟩⟩ 1 (by decide)).1

/-- C5: `fetch_connection` produces, on failure, exactly one of the three
error strings — `"Failed to make network request"` when the HTTP
collaborator errors, `"Response status != 200: {status}"` for a non-200
status, `"Failed to parse response: {detail}"` when the payload does not
decode — and `run` substitutes the error string for the success text, so
the invocation still completes normally with the error text embedded in
the joined output. -/
theorem fetch_connection_error_strings
    (request : String → Except Unit HttpResponse)
    (parseTransport : List Nat → Except String PublicTransportData)
    (now : OffsetDateTime) (connection : Connection) :
    (request (request_url connection) = Except.error () →
        MyWidget.fetch_connection request parseTransport now connection
          = Except.error ⟨"Failed to make network request"⟩)
      ∧ (∀ r : HttpResponse, request (request_url connection) = Except.ok r →
          r.status ≠ 200 →
            MyWidget.fetch_connection request parseTransport now connection
              = Except.error ⟨"Response status != 200: " ++ toString r.status⟩)
      ∧ (∀ (r : HttpResponse) (e : String), request (request_url connection) = Except.ok r →
          r.status = 200 → parseTransport r.bytes = Except.error e →
            MyWidget.fetch_connection request parseTransport now connection
              = Except.error ⟨"Failed to parse response: " ++ e⟩)
      ∧ (∀ (parseJson : String → Except String Json) (ctx : WidgetContext)
          (config : WidgetConfig), ctx.config ≠ "{}" →
          from_str_widget_config parseJson ctx.config = Except.ok config →
            MyWidget.run parseJson request parseTransport now ctx
              = Except.ok ⟨String.intercalate "\n" (config.connections.map (fun c =>
                  match MyWidget.fetch_connection request parseTransport now c with
                  | Except.ok content => content
                  | Except.error error => error.data))⟩) := by
  refine ⟨?_, ?_, ?_, ?_⟩
  · intro hreq
    simp only [MyWidget.fetch_connection, hreq]
  · intro r hreq hstatus
    simp only [MyWidget.fetch_connection, hreq]
    rw [if_pos (Ne.symm hstatus)]
  · intro r e hreq hstatus hparse
    simp only [MyWidget.fetch_connection, hreq]
    rw [if_neg (by omega : ¬200 ≠ r.status), hparse]
  · intro parseJson ctx config hsentinel hdec
    unfold MyWidget.run
    rw [if_neg hsentinel, hdec]

theorem fetch_connection_error_strings_witness :
    (MyWidget.fetch_connection (fun _ => Except.error ()) (fun _ => Except.error "bad")
        ⟨0, 0⟩ ⟨"A", "B", 1⟩
      = Except.error ⟨"Failed to make network request"⟩)
    ∧ (MyWidget.fetch_connection (fun _ => Except.ok ⟨404, []⟩) (fun _ => Except.error "bad")
        ⟨0, 0⟩ ⟨"A", "B", 1⟩
      = Except.error ⟨"Response status != 200: " ++ toString (404 : Nat)⟩)
    ∧ (MyWidget.fetch_connection (fun _ => Except.ok ⟨200, []⟩) (fun _ => Except.error "bad")
        ⟨0, 0⟩ ⟨"A", "B", 1⟩
      = Except.error ⟨"Failed to parse response: " ++ "bad"⟩)
    ∧ (MyWidget.run (fun _ => Except.ok (Json.obj [("connections", Json.arr [])]))
        (fun _ => Except.error ()) (fun _ => Except.error "bad") ⟨0, 0⟩ ⟨"cfg"⟩
      = Except.ok ⟨String.intercalate "\n"
          ((⟨[]⟩ : WidgetConfig).connections.map (fun c =>
            match MyWidget.fetch_connection (fun _ => Except.error ())
                (fun _ => Except.error "bad") ⟨0, 0⟩ c with
            | Except.ok content => content
            | Except.error error => error.data))⟩) :=
  ⟨(fetch_connection_error_strings (fun _ => Except.error ()) (fun _ => Except.error "bad")
      ⟨0, 0⟩ ⟨"A", "B", 1⟩).1 rfl,
   (fetch_connection_error_strings (fun _ => Except.ok ⟨404, []⟩) (fun _ => Except.error "bad")
      ⟨0, 0⟩ ⟨"A", "B", 1⟩).2.1 ⟨404, []⟩ rfl (by decide),
   (fetch_connection_error_strings (fun _ => Except.ok ⟨200, []⟩) (fun _ => Except.error "bad")
      ⟨0, 0⟩ ⟨"A", "B", 1⟩).2.2.1 ⟨200, []⟩ "bad" rfl rfl rfl,
   (fetch_connection_error_strings (fun _ => Except.error ()) (fun _ => Except.error "bad")
      ⟨0, 0⟩ ⟨"A", "B", 1⟩).2.2.2
      (fun _ => Except.ok (Json.obj [("connections", Json.arr [])])) ⟨"cfg"⟩ ⟨[]⟩
      (by decide) rfl⟩

/-- C6: for every configuration string other than `"{}"` that does not
decode into a `WidgetConfig`, `run` aborts the whole invocation (the
`expect` panic, modelled as `Except.error`), with no recovered-text
fallback at this level. -/
theorem run_aborts_on_config_decode_failure
    (parseJson : String → Except String Json)
    (request : String → Except Unit HttpResponse)
    (parseTransport : List Nat → Except String PublicTransportData)
    (now : OffsetDateTime) (ctx : WidgetContext) (e : String)
    (hsentinel : ctx.config ≠ "{}")
    (hdec : from_str_widget_config parseJson ctx.config = Except.error e) :
    MyWidget.run parseJson request parseTransport now ctx
      = Except.error "Failed to parse config" := by
  unfold MyWidget.run
  rw [if_neg hsentinel, hdec]

theorem run_aborts_on_config_decode_failure_witness :
    MyWidget.run (fun _ => Except.error "bad json") (fun _ => Except.error ())
        (fun _ => Except.error "bad") ⟨0, 0⟩ ⟨"not json"⟩
      = Except.error "Failed to parse config" :=
  run_aborts_on_config_decode_failure (fun _ => Except.error "bad json")
    (fun _ => Except.error ()) (fun _ => Except.error "bad") ⟨0, 0⟩ ⟨"not json"⟩
    "bad json" (by decide) rfl

/-- C7: if the configuration string is exactly the empty-object literal
`"{}"`, `run` returns exactly `"No config provided"`; the result holds for
every JSON parser collaborator, so no decoding of the configuration is
attempted. -/
theorem run_empty_object_sentinel
    (parseJson : String → Except String Json)
    (request : String → Except Unit HttpResponse)
    (parseTransport : List Nat → Except String PublicTransportData)
    (now : OffsetDateTime) (ctx : WidgetContext)
    (hcfg : ctx.config = "{}") :
    MyWidget.run parseJson request parseTransport now ctx
      = Except.ok ⟨"No config provided"⟩ := by
  unfold MyWidget.run
  rw [if_pos hcfg]

theorem run_empty_object_sentinel_witness :
    MyWidget.run (fun _ => Except.error "refuses to parse") (fun _ => Except.error ())
        (fun _ => Except.error "bad") ⟨0, 0⟩ ⟨"{}"⟩
      = Except.ok ⟨"No config provided"⟩ :=
  run_empty_object_sentinel (fun _ => Except.error "refuses to parse")
    (fun _ => Except.error ()) (fun _ => Except.error "bad") ⟨0, 0⟩ ⟨"{}"⟩ rfl

/-- C8: encoding a `WidgetConfig` to JSON and decoding the result back
yields an equal value (schema round trip). -/
theorem widget_config_round_trip (c : WidgetConfig) :
    decodeWidgetConfig (encodeWidgetConfig c) = Except.ok c := by
  simp [encodeWidgetConfig, decodeWidgetConfig, List.lookup,
    decode_encode_connection_list]

/-- C9: a configuration that decodes to a `WidgetConfig` with an empty
connections list makes `run` complete normally with the empty string — not
the sentinel text and not a fault — and no fetch is attempted: the result
is identical under every HTTP and transport-decode collaborator.  The
hypothesis on `parseJson "{}"` records the real parser's value on the
sentinel literal, which the config decoder rejects for lack of a
`connections` field. -/
theorem run_empty_connections_list
    (parseJson : String → Except String Json)
    (request : String → Except Unit HttpResponse)
    (parseTransport : List Nat → Except String PublicTransportData)
    (now : OffsetDateTime) (ctx : WidgetContext)
    (hbrace : parseJson "{}" = Except.ok (Json.obj []))
    (hdec : from_str_widget_config parseJson ctx.config = Except.ok ⟨[]⟩) :
    MyWidget.run parseJson request parseTransport now ctx = Except.ok ⟨""⟩
      ∧ ∀ (request2 : String → Except Unit HttpResponse)
          (parseTransport2 : List Nat → Except String PublicTransportData)
          (now2 : OffsetDateTime),
          MyWidget.run parseJson request2 parseTransport2 now2 ctx
            = MyWidget.run parseJson request parseTransport now ctx := by
  have hsentinel : ctx.config ≠ "{}" := by
    intro habs
    rw [habs] at hdec
    unfold from_str_widget_config at hdec
    rw [hbrace] at hdec
    simp [decodeWidgetConfig] at hdec
  have hrun : ∀ (req : String → Except Unit HttpResponse)
      (pt : List Nat → Except String PublicTransportData) (t : OffsetDateTime),
      MyWidget.run parseJson req pt t ctx = Except.ok ⟨""⟩ := by
    intro req pt t
    unfold MyWidget.run
    rw [if_neg hsentinel, hdec]
    rfl
  exact ⟨hrun request parseTransport now, fun req2 pt2 t2 => by
    rw [hrun req2 pt2 t2, hrun request parseTransport now]⟩

theorem run_empty_connections_list_witness :
    MyWidget.run
        (fun s => if s = "cfg" then Except.ok (Json.obj [("connections", Json.arr [])])
          else Except.ok (Json.obj []))
        (fun _ => Except.error ()) (fun _ => Except.error "bad") ⟨0, 0⟩ ⟨"cfg"⟩
      = Except.ok ⟨""⟩ :=
  (run_empty_connections_list
    (fun s => if s = "cfg" then Except.ok (Json.obj [("connections", Json.arr [])])
      else Except.ok (Json.obj []))
    (fun _ => Except.error ()) (fun _ => Except.error "bad") ⟨0, 0⟩ ⟨"cfg"⟩
    rfl rfl).1

/-- C10: `MyWidget::now` casts the clock collaborator's seconds to a signed
64-bit value and unwraps `from_unix_timestamp`: whenever the cast value
lies in the range accepted by `OffsetDateTime::from_unix_timestamp`
(`-377705116800 ..= 253402300799`), it returns the corresponding UTC
instant, and for any reading outside that range the unwrap panics, aborting
the invocation; so totality is conditional on an in-range clock. -/
theorem now_range_characterization (s : Nat) :
    (-377705116800 ≤ u64_as_i64 s ∧ u64_as_i64 s ≤ 253402300799 →
        MyWidget.now s = Except.ok ⟨u64_as_i64 s * 1000000000, 0⟩)
      ∧ (¬(-377705116800 ≤ u64_as_i64 s ∧ u64_as_i64 s ≤ 253402300799) →
        MyWidget.now s = Except.error ()) := by
  constructor
  · intro h
    unfold MyWidget.now from_unix_timestamp
    rw [if_pos h]
  · intro h
    unfold MyWidget.now from_unix_timestamp
    rw [if_neg h]

theorem now_range_characterization_witness :
    MyWidget.now 1700000000 = Except.ok ⟨u64_as_i64 1700000000 * 1000000000, 0⟩
      ∧ MyWidget.now (2 ^ 63) = Except.error () :=
  ⟨(now_range_characterization 1700000000).1 (by norm_num [u64_as_i64]),
   (now_range_characterization (2 ^ 63)).2 (by norm_num [u64_as_i64])⟩
